import Mathlib

/-!
Shallow embedding of the format-negotiation and control-value-mapping core of
the OmniCamera repository (src/omni_camera/__init__.py and its legacy
near-duplicate src/camerata/__init__.py), together with theorems settling the
frozen claims about it.

Conventions of the embedding:
- Python lists become Lean lists; the CameraFormatOptions subclass of list is
  a List CameraFormat.
- Python ints are Lean Int (or Nat for the nonnegative fields of a format);
  Python floor division a//b is Int.fdiv, Python % with positive divisor is
  Int.emod.
- Python floats appearing in this code (aspect ratios, fractions) are modelled
  as rationals.
- A Python method that can raise becomes a function into Except PyError.
  A method whose only side effect is one call into the native engine returns
  the call it performs, so that "the engine is never invoked" is expressible.
- A Python method that may mutate self is modelled as a state transformer
  returning the new contents of self together with its result.
-/

/-- Pixel encodings, from the FrameFormat enum of both binding versions. -/
inductive FrameFormat
  | MJPEG
  | YUYV
deriving DecidableEq, Repr

/-- One camera format: the four engine-reported fields wrapped by the
CameraFormat class (width, height, frame_rate, format). -/
structure CameraFormat where
  width : Nat
  height : Nat
  frame_rate : Nat
  format : FrameFormat
deriving DecidableEq, Repr

/-- Exceptions this core can raise. valueError is what Python max raises on an
empty sequence (message: max() arg is an empty sequence), indexError is what
indexing past the end raises, assertionError is a failed assert statement. -/
inductive PyError
  | valueError
  | indexError
  | assertionError
deriving DecidableEq, Repr

/-- Non-fatal advisories emitted through the warnings module; the deprecation
constructor stands for the DeprecationWarning issued by prefer_sides_ratio in
src/omni_camera/__init__.py line 108. -/
inductive Warning
  | deprecation
deriving DecidableEq, Repr

/-- Decidable equality on Except values, so that concrete evaluations of the
embedded methods can be settled by decide. -/
instance {ε α : Type} [DecidableEq ε] [DecidableEq α] : DecidableEq (Except ε α) :=
  fun a b =>
    match a, b with
    | .error x, .error y =>
      if h : x = y then .isTrue (by rw [h]) else .isFalse (fun hc => h (Except.error.inj hc))
    | .ok x, .ok y =>
      if h : x = y then .isTrue (by rw [h]) else .isFalse (fun hc => h (Except.ok.inj hc))
    | .error _, .ok _ => .isFalse (fun hc => Except.noConfusion hc)
    | .ok _, .error _ => .isFalse (fun hc => Except.noConfusion hc)

namespace OmniCamera

/-- CameraFormatOptions.prefer, src/omni_camera/__init__.py lines 69-78:
build the filtered list; if it is empty return self, else the filtered list. -/
def prefer (self : List CameraFormat) (func : CameraFormat → Bool) : List CameraFormat :=
  let options := self.filter func
  if options.isEmpty then self else options

/-- CameraFormatOptions._prefer_range, lines 80-81: keep formats whose
val_getter value lies between the optional bounds. -/
def prefer_range (self : List CameraFormat) (val_getter : CameraFormat → Int)
    (min_val max_val : Option Int) : List CameraFormat :=
  prefer self (fun x =>
    (min_val.elim true (fun m => decide (val_getter x ≥ m))) &&
    (max_val.elim true (fun m => decide (val_getter x ≤ m))))

/-- CameraFormatOptions.prefer_fps_range, lines 83-87. -/
def prefer_fps_range (self : List CameraFormat) (min_fps max_fps : Option Int) :
    List CameraFormat :=
  prefer_range self (fun x => (x.frame_rate : Int)) min_fps max_fps

/-- CameraFormatOptions.prefer_aspect_ratio, lines 101-105: keep formats with
abs (width / height - width_by_height) < 1e-6, arithmetic on rationals. -/
def prefer_aspect_ratio (self : List CameraFormat) (width_by_height : ℚ) :
    List CameraFormat :=
  prefer self (fun x => decide (|(x.width : ℚ) / (x.height : ℚ) - width_by_height| < 1 / 1000000))

/-- CameraFormatOptions.prefer_sides_ratio, lines 107-109: emit a deprecation
warning, then delegate to prefer_aspect_ratio. The first component is the list
of warnings issued, the second the returned list. -/
def prefer_sides_ratio (self : List CameraFormat) (width_by_height : ℚ) :
    List Warning × List CameraFormat :=
  ([Warning.deprecation], prefer_aspect_ratio self width_by_height)

/-- CameraFormatOptions.prefer_frame_format, lines 111-112. -/
def prefer_frame_format (self : List CameraFormat) (fmt : FrameFormat) :
    List CameraFormat :=
  prefer self (fun x => x.format == fmt)

end OmniCamera

namespace Camerata

/-- CameraFormatOptions.prefer, src/camerata/__init__.py lines 68-77; the body
is identical to the omni_camera version. -/
def prefer (self : List CameraFormat) (func : CameraFormat → Bool) : List CameraFormat :=
  let options := self.filter func
  if options.isEmpty then self else options

/-- CameraFormatOptions.prefer_fps_range, src/camerata/__init__.py lines 79-83. -/
def prefer_fps_range (self : List CameraFormat) (min_fps max_fps : Option Int) :
    List CameraFormat :=
  prefer self (fun x =>
    (min_fps.elim true (fun m => decide ((x.frame_rate : Int) ≥ m))) &&
    (max_fps.elim true (fun m => decide ((x.frame_rate : Int) ≤ m))))

/-- CameraFormatOptions.prefer_sides_ratio, src/camerata/__init__.py
lines 85-89 (the primary name there, no deprecation warning). -/
def prefer_sides_ratio (self : List CameraFormat) (width_by_height : ℚ) :
    List CameraFormat :=
  prefer self (fun x => decide (|(x.width : ℚ) / (x.height : ℚ) - width_by_height| < 1 / 1000000))

/-- CameraFormatOptions.prefer_frame_format, src/camerata/__init__.py
lines 91-92. -/
def prefer_frame_format (self : List CameraFormat) (fmt : FrameFormat) :
    List CameraFormat :=
  prefer self (fun x => x.format == fmt)

end Camerata

/-- A Python range object range(start, stop, step). -/
structure PyRange where
  start : Int
  stop : Int
  step : Int
deriving DecidableEq, Repr

/-- len of a range, following the CPython computation: for a positive step,
(stop - start - 1) // step + 1 when start < stop, else 0; symmetrically for a
negative step. A zero step cannot occur (range construction raises). The
result is kept as an Int for arithmetic convenience; it is never negative. -/
def PyRange.pylen (r : PyRange) : Int :=
  if 0 < r.step then
    if r.start < r.stop then (r.stop - r.start - 1).fdiv r.step + 1 else 0
  else if r.step < 0 then
    if r.stop < r.start then (r.start - r.stop - 1).fdiv (-r.step) + 1 else 0
  else 0

/-- Indexing r[i] on a range, following CPython: a negative index is first
shifted by len, then the bounds are checked; out of bounds raises IndexError
(modelled as none). -/
def PyRange.pyget (r : PyRange) (i : Int) : Option Int :=
  let n := r.pylen
  let j := if i < 0 then i + n else i
  if 0 ≤ j ∧ j < n then some (r.start + j * r.step) else none

/-- Membership v in r for an int v, following the O(1) test CPython uses:
for a positive step, start ≤ v < stop and (v - start) % step == 0;
symmetrically for a negative step. -/
def PyRange.pymem (r : PyRange) (v : Int) : Bool :=
  if 0 < r.step then
    decide (r.start ≤ v ∧ v < r.stop ∧ (v - r.start).emod r.step = 0)
  else if r.step < 0 then
    decide (v ≤ r.start ∧ r.stop < v ∧ (v - r.start).emod r.step = 0)
  else false

/-- Python round for the (rational-modelled) float arguments this code passes
to it: round to the nearest integer, ties to even. -/
def pyRound (q : ℚ) : Int :=
  if q - ⌊q⌋ < 1 / 2 then ⌊q⌋
  else if 1 / 2 < q - ⌊q⌋ then ⌊q⌋ + 1
  else if (⌊q⌋).emod 2 = 0 then ⌊q⌋ else ⌊q⌋ + 1

/-- The raw (start, stop, step) triple reported by the engine for a control,
the result of self._control.value_range() in CameraControl.value_range. -/
structure ControlRange where
  start : Int
  stop : Int
  step : Int
deriving DecidableEq, Repr

/-- The while loop of CameraControl.value_range, src/omni_camera/__init__.py
lines 141-142: starting from new_start, add step while new_start <= start.
The source loops unconditionally; for a nonpositive step that loop would
never terminate, so the model only iterates while the step is positive (the
engine reports positive steps). -/
def alignLoop (start step new_start : Int) : Int :=
  if _h : 0 < step ∧ new_start ≤ start then alignLoop start step (new_start + step)
  else new_start
termination_by (start + step - new_start).toNat
decreasing_by omega

/-- The value new_start computed (and then discarded) by
CameraControl.value_range, lines 140-142: start//step*step, then the loop. -/
def computed_new_start (c : ControlRange) : Int :=
  alignLoop c.start c.step ((c.start.fdiv c.step) * c.step)

/-- CameraControl.value_range, src/omni_camera/__init__.py lines 133-143.
Note the function computes new_start but returns range(start, stop, step)
built from the raw start, so the alignment never takes effect. -/
def value_range (c : ControlRange) : PyRange :=
  { start := c.start, stop := c.stop, step := c.step }

/-- The range the alignment was meant to produce, per the comment on lines
139-142 and the spec (section 4.4): the same range but starting at the
computed new_start. The code never builds this range; it is stated here to
measure the divergence. -/
def normalized_value_range (c : ControlRange) : PyRange :=
  { start := computed_new_start c, stop := c.stop, step := c.step }

/-- The single engine call a successful set_value performs,
self._control.set_value(value), where none is the reset sentinel. -/
inductive EngineCall
  | setControl (value : Option Int)
deriving DecidableEq, Repr

/-- CameraControl.set_value, src/omni_camera/__init__.py lines 145-152: for a
non-None value, assert membership in self.value_range before calling the
engine; an ok result carries the engine call performed, an error means the
assert fired and the engine was never invoked. -/
def set_value (c : ControlRange) (value : Option Int) : Except PyError EngineCall :=
  match value with
  | some v =>
    if (value_range c).pymem v then .ok (.setControl (some v))
    else .error .assertionError
  | none => .ok (.setControl none)

/-- CameraControl.set_fraction, src/omni_camera/__init__.py lines 154-161:
assert 0 <= fraction <= 1, compute ind = round(fraction * (len(value_range) - 1)),
then delegate to set_value with value_range[ind]. -/
def set_fraction (c : ControlRange) (fraction : ℚ) : Except PyError EngineCall :=
  if 0 ≤ fraction ∧ fraction ≤ 1 then
    let ind := pyRound (fraction * (((value_range c).pylen : ℚ) - 1))
    match (value_range c).pyget ind with
    | some v => set_value c (some v)
    | none => .error .indexError
  else .error .assertionError

section PreferLemmas

open OmniCamera

/-- Unfolding lemma: prefer is the filtered list when that is nonempty. -/
theorem prefer_of_filter_ne_nil {s : List CameraFormat} {p : CameraFormat → Bool}
    (h : s.filter p ≠ []) : prefer s p = s.filter p := by
  simp only [prefer]
  rw [if_neg]
  simpa using h

/-- Unfolding lemma: prefer falls back to self when the filter is empty. -/
theorem prefer_of_filter_eq_nil {s : List CameraFormat} {p : CameraFormat → Bool}
    (h : s.filter p = []) : prefer s p = s := by
  simp only [prefer]
  rw [if_pos]
  simpa using h

end PreferLemmas

namespace OmniCamera

/-- The fold performed by Python max over the tail of the list, with the head
as initial value: the current best is replaced exactly when the new element
has a strictly greater key, so ties keep the earlier element. -/
def pymaxFold (key : CameraFormat → Int) (acc : CameraFormat)
    (l : List CameraFormat) : CameraFormat :=
  l.foldl (fun cur y => if key cur < key y then y else cur) acc

/-- The default key of resolve: lambda x, x.width. -/
def widthKey (x : CameraFormat) : Int := x.width

/-- CameraFormatOptions.resolve, src/omni_camera/__init__.py lines 115-119:
max(self, key=key); on an empty list Python max raises ValueError. -/
def resolve (self : List CameraFormat) (key : CameraFormat → Int) :
    Except PyError CameraFormat :=
  match self with
  | [] => .error .valueError
  | x :: xs => .ok (pymaxFold key x xs)

/-- CameraFormatOptions.resolve_default, lines 121-126: chain the default
preferences, then resolve with the default key; the deprecation warning of the
prefer_sides_ratio step is part of the observable behaviour. -/
def resolve_default (self : List CameraFormat) :
    List Warning × Except PyError CameraFormat :=
  let s1 := prefer_fps_range self (some 25) (some 60)
  let ws2 := prefer_sides_ratio s1 (4 / 3)
  let s3 := prefer_frame_format ws2.2 FrameFormat.MJPEG
  (ws2.1, resolve s3 widthKey)

end OmniCamera

namespace Camerata

/-- Insertion of one element into a list already sorted by width, placing the
new element before the first existing element of greater-or-equal width. -/
def sortInsert (x : CameraFormat) : List CameraFormat → List CameraFormat
  | [] => [x]
  | y :: ys => if x.width ≤ y.width then x :: y :: ys else y :: sortInsert x ys

/-- Stable ascending sort by width, modelling self.sort(key=lambda x, x.width)
in src/camerata/__init__.py line 98. Python list.sort is stable; so is this
insertion sort: an element is inserted before equal-width elements that came
later in the traversal, which are exactly those that followed it originally. -/
def pysort : List CameraFormat → List CameraFormat
  | [] => []
  | x :: xs => sortInsert x (pysort xs)

/-- CameraFormatOptions.resolve, src/camerata/__init__.py lines 94-99:
self.sort(key=lambda x, x.width) mutates self in place, then self[-1] is
returned (IndexError on an empty list). The first component is the contents of
self after the call, the second the result. -/
def resolve (self : List CameraFormat) :
    List CameraFormat × Except PyError CameraFormat :=
  let sorted := pysort self
  match sorted.getLast? with
  | none => (sorted, .error .indexError)
  | some f => (sorted, .ok f)

/-- CameraFormatOptions.resolve_default, src/camerata/__init__.py
lines 101-106: the preference chain followed by resolve. Only the final
resolve step can mutate; its post-state is the first component of the pair it
returns and is left visible here through the nested pair. -/
def resolve_default (self : List CameraFormat) :
    List CameraFormat × Except PyError CameraFormat :=
  resolve (prefer_frame_format
    (prefer_sides_ratio (prefer_fps_range self (some 25) (some 60)) (4 / 3))
    FrameFormat.MJPEG)

end Camerata

namespace OmniCamera

/-- State view of prefer for the mutation claims: the method body only reads
self (filter builds a fresh list), so the post-state of self (first component)
is unchanged. -/
def prefer_st (self : List CameraFormat) (func : CameraFormat → Bool) :
    List CameraFormat × List CameraFormat :=
  (self, prefer self func)

/-- State view of prefer_fps_range; no statement in its body writes self. -/
def prefer_fps_range_st (self : List CameraFormat) (min_fps max_fps : Option Int) :
    List CameraFormat × List CameraFormat :=
  (self, prefer_fps_range self min_fps max_fps)

/-- State view of prefer_aspect_ratio; no statement in its body writes self. -/
def prefer_aspect_ratio_st (self : List CameraFormat) (r : ℚ) :
    List CameraFormat × List CameraFormat :=
  (self, prefer_aspect_ratio self r)

/-- State view of prefer_sides_ratio; no statement in its body writes self. -/
def prefer_sides_ratio_st (self : List CameraFormat) (r : ℚ) :
    List CameraFormat × (List Warning × List CameraFormat) :=
  (self, prefer_sides_ratio self r)

/-- State view of prefer_frame_format; no statement in its body writes self. -/
def prefer_frame_format_st (self : List CameraFormat) (fmt : FrameFormat) :
    List CameraFormat × List CameraFormat :=
  (self, prefer_frame_format self fmt)

/-- State view of resolve: Python max only iterates over self. -/
def resolve_st (self : List CameraFormat) (key : CameraFormat → Int) :
    List CameraFormat × Except PyError CameraFormat :=
  (self, resolve self key)

/-- State view of resolve_default: every step reads self or a fresh list. -/
def resolve_default_st (self : List CameraFormat) :
    List CameraFormat × (List Warning × Except PyError CameraFormat) :=
  (self, resolve_default self)

end OmniCamera

/-- Concrete fixture from the spec, section 8: a 640x480 YUYV format at 30fps. -/
def fYUYV30 : CameraFormat :=
  { width := 640, height := 480, frame_rate := 30, format := FrameFormat.YUYV }

/-- Concrete fixture from the spec, section 8: a 640x480 MJPEG format at 60fps. -/
def fMJPEG60 : CameraFormat :=
  { width := 640, height := 480, frame_rate := 60, format := FrameFormat.MJPEG }

/-- Concrete fixture of width 2 (the larger), for the mutation counterexample. -/
def gW2 : CameraFormat :=
  { width := 2, height := 2, frame_rate := 30, format := FrameFormat.MJPEG }

/-- Concrete fixture of width 1 (the smaller), for the mutation counterexample. -/
def gW1 : CameraFormat :=
  { width := 1, height := 2, frame_rate := 30, format := FrameFormat.MJPEG }

/-- Fixture predicate: frame rate between 50 and 70 (the fps preference of the
spec example in section 8). -/
def pFps50to70 : CameraFormat → Bool :=
  fun x => decide (50 ≤ x.frame_rate) && decide (x.frame_rate ≤ 70)

/-- Fixture predicate: the pixel encoding is YUYV. -/
def pYUYV : CameraFormat → Bool :=
  fun x => x.format == FrameFormat.YUYV

/-- C2: for every CameraFormatOptions s and predicate p, prefer p returns the
order-preserving sublist of elements satisfying p when that sublist is
nonempty, returns s unchanged when it is empty, and therefore never returns an
empty list from a nonempty input; the camerata version has the identical body
and agrees. -/
theorem c2_prefer_soft_fallback :
    ∀ (s : List CameraFormat) (p : CameraFormat → Bool),
      (s.filter p ≠ [] → OmniCamera.prefer s p = s.filter p) ∧
      (s.filter p = [] → OmniCamera.prefer s p = s) ∧
      (s ≠ [] → OmniCamera.prefer s p ≠ []) ∧
      Camerata.prefer s p = OmniCamera.prefer s p := by
  intro s p
  refine ⟨fun h => prefer_of_filter_ne_nil h, fun h => prefer_of_filter_eq_nil h,
    fun hs => ?_, rfl⟩
  by_cases h : s.filter p = []
  · rw [prefer_of_filter_eq_nil h]; exact hs
  · rw [prefer_of_filter_ne_nil h]; exact h

/-- Witness for C2 at a concrete input: a singleton list and a predicate it
satisfies, where prefer returns the filtered sublist. -/
theorem c2_prefer_soft_fallback_witness :
    OmniCamera.prefer [fYUYV30] pYUYV = [fYUYV30] := by
  have h := (c2_prefer_soft_fallback [fYUYV30] pYUYV).1 (by decide)
  rw [h]; decide

/-- C4 is false as stated: on the spec's own example set, the fps predicate
and the encoding predicate each match exactly one (distinct) element, so each
individually matches a nonempty subset, yet the two application orders give
different results because the second filter always falls back. -/
theorem c4_counterexample :
    List.filter pFps50to70 [fYUYV30, fMJPEG60] ≠ [] ∧
    List.filter pYUYV [fYUYV30, fMJPEG60] ≠ [] ∧
    OmniCamera.prefer (OmniCamera.prefer [fYUYV30, fMJPEG60] pFps50to70) pYUYV = [fMJPEG60] ∧
    OmniCamera.prefer (OmniCamera.prefer [fYUYV30, fMJPEG60] pYUYV) pFps50to70 = [fYUYV30] ∧
    OmniCamera.prefer (OmniCamera.prefer [fYUYV30, fMJPEG60] pFps50to70) pYUYV ≠
      OmniCamera.prefer (OmniCamera.prefer [fYUYV30, fMJPEG60] pYUYV) pFps50to70 := by
  decide

/-- C4 amended: the two orders of soft preference agree whenever some element
of the original set satisfies both predicates at once (then both orders return
the plain intersection filter, in order). -/
theorem c4_amended :
    ∀ (s : List CameraFormat) (A B : CameraFormat → Bool),
      s.filter (fun x => A x && B x) ≠ [] →
      OmniCamera.prefer (OmniCamera.prefer s A) B =
        OmniCamera.prefer (OmniCamera.prefer s B) A := by
  intro s A B h
  have hA : s.filter A ≠ [] := by
    intro hA
    apply h
    rw [List.filter_eq_nil_iff] at hA ⊢
    intro a ha
    simp [hA a ha]
  have hB : s.filter B ≠ [] := by
    intro hB
    apply h
    rw [List.filter_eq_nil_iff] at hB ⊢
    intro a ha
    simp [hB a ha]
  have hABeq : (s.filter A).filter B = s.filter (fun x => A x && B x) := by
    rw [List.filter_filter]
    exact List.filter_congr (fun a _ => Bool.and_comm (B a) (A a))
  have hBAeq : (s.filter B).filter A = s.filter (fun x => A x && B x) := by
    rw [List.filter_filter]
  rw [prefer_of_filter_ne_nil hA, prefer_of_filter_ne_nil hB,
    prefer_of_filter_ne_nil (hABeq ▸ h), prefer_of_filter_ne_nil (hBAeq ▸ h),
    hABeq, hBAeq]

/-- Witness for the amended C4 at a concrete input where both predicates hold
of the single element. -/
theorem c4_amended_witness :
    OmniCamera.prefer (OmniCamera.prefer [fYUYV30] pYUYV) pYUYV =
      OmniCamera.prefer (OmniCamera.prefer [fYUYV30] pYUYV) pYUYV :=
  c4_amended [fYUYV30] pYUYV pYUYV (by decide)

/-- C7: resolving an empty candidate set surfaces an error to the caller in
every variant: omni_camera resolve and resolve_default raise the ValueError of
max on an empty sequence, camerata resolve and resolve_default raise
IndexError from self[-1] on an empty list. -/
theorem c7_empty_resolve_errors :
    (∀ key, OmniCamera.resolve [] key = .error .valueError) ∧
    (OmniCamera.resolve_default []).2 = .error .valueError ∧
    (Camerata.resolve []).2 = .error .indexError ∧
    (Camerata.resolve_default []).2 = .error .indexError := by
  exact ⟨fun key => rfl, rfl, rfl, rfl⟩

/-- C9: the deprecated alias prefer_sides_ratio returns exactly the result of
prefer_aspect_ratio, completes without error (its result type has no error
case), and emits the deprecation advisory as a non-fatal warning value. -/
theorem c9_sides_ratio_alias :
    ∀ (s : List CameraFormat) (r : ℚ),
      (OmniCamera.prefer_sides_ratio s r).2 = OmniCamera.prefer_aspect_ratio s r ∧
      (OmniCamera.prefer_sides_ratio s r).1 = [Warning.deprecation] :=
  fun _ _ => ⟨rfl, rfl⟩

/-- C10: soft preference is idempotent, both when the predicate matches some
element (the second pass filters an already-filtered list) and when it matches
none (both passes fall back to the input). -/
theorem c10_prefer_idempotent :
    ∀ (s : List CameraFormat) (p : CameraFormat → Bool),
      OmniCamera.prefer (OmniCamera.prefer s p) p = OmniCamera.prefer s p := by
  intro s p
  by_cases h : s.filter p = []
  · rw [prefer_of_filter_eq_nil h]
    exact prefer_of_filter_eq_nil h
  · rw [prefer_of_filter_ne_nil h]
    have h2 : (s.filter p).filter p = s.filter p := by
      rw [List.filter_filter]
      exact List.filter_congr (fun a _ => Bool.and_self (p a))
    rw [prefer_of_filter_ne_nil (h2.symm ▸ h : (s.filter p).filter p ≠ []), h2]

/-- The fold performed by Python max returns the first maximum in iteration
order: the list splits around the returned element, everything before it has a
strictly smaller key, and nothing has a larger key. -/
theorem pymaxFold_first_max (key : CameraFormat → Int) :
    ∀ (xs : List CameraFormat) (x : CameraFormat),
      ∃ l1 l2, x :: xs = l1 ++ OmniCamera.pymaxFold key x xs :: l2 ∧
        (∀ y ∈ l1, key y < key (OmniCamera.pymaxFold key x xs)) ∧
        (∀ y ∈ x :: xs, key y ≤ key (OmniCamera.pymaxFold key x xs)) := by
  intro xs
  induction xs with
  | nil =>
    intro x
    refine ⟨[], [], rfl, by simp, ?_⟩
    intro y hy
    rw [List.mem_singleton] at hy
    subst hy
    exact le_refl _
  | cons y ys ih =>
    intro x
    by_cases hxy : key x < key y
    · obtain ⟨l1, l2, heq, hlt, hle⟩ := ih y
      have hfold : OmniCamera.pymaxFold key x (y :: ys) = OmniCamera.pymaxFold key y ys := by
        simp only [OmniCamera.pymaxFold, List.foldl_cons, if_pos hxy]
      have hym : key y ≤ key (OmniCamera.pymaxFold key y ys) := hle y (List.mem_cons_self y ys)
      refine ⟨x :: l1, l2, ?_, ?_, ?_⟩
      · rw [hfold, List.cons_append, ← heq]
      · intro z hz
        rw [hfold]
        rcases List.mem_cons.mp hz with hzx | hzl
        · subst hzx
          exact lt_of_lt_of_le hxy hym
        · exact hlt z hzl
      · intro z hz
        rw [hfold]
        rcases List.mem_cons.mp hz with hzx | hzl
        · subst hzx
          exact le_of_lt (lt_of_lt_of_le hxy hym)
        · exact hle z hzl
    · obtain ⟨l1, l2, heq, hlt, hle⟩ := ih x
      have hfold : OmniCamera.pymaxFold key x (y :: ys) = OmniCamera.pymaxFold key x ys := by
        simp only [OmniCamera.pymaxFold, List.foldl_cons, if_neg hxy]
      have hyx : key y ≤ key x := le_of_not_lt hxy
      have hxm : key x ≤ key (OmniCamera.pymaxFold key x ys) := hle x (List.mem_cons_self x ys)
      cases l1 with
      | nil =>
        rw [List.nil_append] at heq
        have hx : x = OmniCamera.pymaxFold key x ys := (List.cons.injEq _ _ _ _ ▸ heq).1
        have hys : ys = l2 := (List.cons.injEq _ _ _ _ ▸ heq).2
        refine ⟨[], y :: l2, ?_, by simp, ?_⟩
        · rw [hfold, List.nil_append, ← hx, ← hys]
        · intro z hz
          rw [hfold, ← hx]
          rcases List.mem_cons.mp hz with hzx | hzl
          · subst hzx
            exact le_refl _
          · rcases List.mem_cons.mp hzl with hzy | hzys
            · subst hzy
              exact hyx
            · exact hx ▸ hle z (List.mem_cons_of_mem x hzys)
      | cons a l1t =>
        rw [List.cons_append] at heq
        have hxa : x = a := (List.cons.injEq _ _ _ _ ▸ heq).1
        have hys : ys = l1t ++ OmniCamera.pymaxFold key x ys :: l2 :=
          (List.cons.injEq _ _ _ _ ▸ heq).2
        have hxlt : key x < key (OmniCamera.pymaxFold key x ys) := by
          have h0 := hlt a (List.mem_cons_self a l1t)
          rw [← hxa] at h0
          exact h0
        refine ⟨x :: y :: l1t, l2, ?_, ?_, ?_⟩
        · rw [hfold, List.cons_append, List.cons_append, ← hys]
        · intro z hz
          rw [hfold]
          rcases List.mem_cons.mp hz with hzx | hzl
          · subst hzx
            exact hxlt
          · rcases List.mem_cons.mp hzl with hzy | hzys
            · subst hzy
              exact lt_of_le_of_lt hyx hxlt
            · exact hlt z (hxa ▸ List.mem_cons_of_mem a hzys)
        · intro z hz
          rw [hfold]
          rcases List.mem_cons.mp hz with hzx | hzl
          · subst hzx
            exact hxm
          · rcases List.mem_cons.mp hzl with hzy | hzys
            · subst hzy
              exact le_trans hyx hxm
            · exact hle z (List.mem_cons_of_mem x hzys)

/-- C3 is false as stated over the repository: the camerata resolve (stable
sort ascending by width, then take the last element) returns the LAST
width-maximal candidate of the iteration order, not the first; on the spec's
example pair of equal-width formats it returns the second element. -/
theorem c3_counterexample :
    fYUYV30.width = 640 ∧ fMJPEG60.width = 640 ∧
    (Camerata.resolve [fYUYV30, fMJPEG60]).2 = .ok fMJPEG60 ∧
    (Camerata.resolve [fYUYV30, fMJPEG60]).2 ≠ .ok fYUYV30 := by
  decide

/-- C3 amended: the omni_camera resolve (Python max) returns the first
candidate with maximal key in iteration order, deterministically (it is a pure
function of the list); the camerata resolve instead returns the last maximal
candidate, as witnessed on the spec's example pair. -/
theorem c3_amended :
    (∀ (key : CameraFormat → Int) (x : CameraFormat) (xs : List CameraFormat),
      ∃ m l1 l2, OmniCamera.resolve (x :: xs) key = .ok m ∧
        x :: xs = l1 ++ m :: l2 ∧
        (∀ y ∈ l1, key y < key m) ∧
        (∀ y ∈ x :: xs, key y ≤ key m)) ∧
    ((Camerata.resolve [fYUYV30, fMJPEG60]).2 = .ok fMJPEG60 ∧ fMJPEG60 ≠ fYUYV30) := by
  constructor
  · intro key x xs
    obtain ⟨l1, l2, heq, hlt, hle⟩ := pymaxFold_first_max key xs x
    exact ⟨_, l1, l2, rfl, heq, hlt, hle⟩
  · exact ⟨by decide, by decide⟩

/-- Inserting into the width-sorted list is a permutation of consing. -/
theorem sortInsert_perm (x : CameraFormat) (l : List CameraFormat) :
    (Camerata.sortInsert x l).Perm (x :: l) := by
  induction l with
  | nil => exact List.Perm.refl _
  | cons y ys ih =>
    rw [Camerata.sortInsert]
    by_cases h : x.width ≤ y.width
    · rw [if_pos h]
    · rw [if_neg h]
      exact (ih.cons y).trans (List.Perm.swap x y ys)

/-- The camerata in-place sort permutes the list contents. -/
theorem pysort_perm (l : List CameraFormat) : (Camerata.pysort l).Perm l := by
  induction l with
  | nil => exact List.Perm.refl _
  | cons x xs ih =>
    exact (sortInsert_perm x (Camerata.pysort xs)).trans (ih.cons x)

/-- The post-state of the camerata resolve is the sorted list. -/
theorem camerata_resolve_state (s : List CameraFormat) :
    (Camerata.resolve s).1 = Camerata.pysort s := by
  unfold Camerata.resolve
  cases h : (Camerata.pysort s).getLast? <;> simp [h]

/-- C8 is false as stated: the camerata resolve mutates its receiver by
sorting it in place; on a two-element list in descending width order the
contents of self after the call differ from the contents before. -/
theorem c8_counterexample :
    (Camerata.resolve [gW2, gW1]).1 ≠ [gW2, gW1] ∧
    (Camerata.resolve [gW2, gW1]).1 = [gW1, gW2] := by
  decide

/-- C8 amended: all omni_camera filter and resolution operations leave the
receiver unchanged (their bodies never write self), and so does the camerata
prefer; the camerata resolve, however, replaces the contents of self with the
width-sorted list — a reordering (a permutation) of the original contents. -/
theorem c8_amended :
    (∀ s p, (OmniCamera.prefer_st s p).1 = s) ∧
    (∀ s a b, (OmniCamera.prefer_fps_range_st s a b).1 = s) ∧
    (∀ s r, (OmniCamera.prefer_aspect_ratio_st s r).1 = s) ∧
    (∀ s r, (OmniCamera.prefer_sides_ratio_st s r).1 = s) ∧
    (∀ s f, (OmniCamera.prefer_frame_format_st s f).1 = s) ∧
    (∀ s k, (OmniCamera.resolve_st s k).1 = s) ∧
    (∀ s, (OmniCamera.resolve_default_st s).1 = s) ∧
    (∀ s, (Camerata.resolve s).1 = Camerata.pysort s ∧ (Camerata.resolve s).1.Perm s) := by
  refine ⟨fun _ _ => rfl, fun _ _ _ => rfl, fun _ _ => rfl, fun _ _ => rfl,
    fun _ _ => rfl, fun _ _ => rfl, fun _ => rfl, fun s => ?_⟩
  refine ⟨camerata_resolve_state s, ?_⟩
  rw [camerata_resolve_state s]
  exact pysort_perm s

/-- Evaluation of the discarded alignment computation on a start that is a
multiple of the step: 4000//1000*1000 = 4000, then one loop iteration. -/
theorem computed_new_start_4000 :
    computed_new_start { start := 4000, stop := 10000, step := 1000 } = 5000 := by
  unfold computed_new_start
  have h : ((4000 : Int).fdiv 1000) * 1000 = 4000 := by decide
  simp only
  rw [h]
  unfold alignLoop
  norm_num
  unfold alignLoop
  norm_num

/-- Evaluation of the discarded alignment computation on an unaligned start:
4500//1000*1000 = 4000, then one loop iteration past 4500. -/
theorem computed_new_start_4500 :
    computed_new_start { start := 4500, stop := 10000, step := 1000 } = 5000 := by
  unfold computed_new_start
  have h : ((4500 : Int).fdiv 1000) * 1000 = 4000 := by decide
  simp only
  rw [h]
  unfold alignLoop
  norm_num
  unfold alignLoop
  norm_num

/-- C1 as stated is violated by the code: value_range computes the aligned
new_start (5000 in both of the claim's concrete cases) but then returns
range(start, stop, step) built from the raw start, so the first value of
value_range is 4000 (resp. 4500), not 5000. -/
theorem c1_value_range_discards_alignment :
    (value_range { start := 4000, stop := 10000, step := 1000 }).pyget 0 = some 4000 ∧
    (value_range { start := 4000, stop := 10000, step := 1000 }).pyget 0 ≠ some 5000 ∧
    computed_new_start { start := 4000, stop := 10000, step := 1000 } = 5000 ∧
    (value_range { start := 4500, stop := 10000, step := 1000 }).pyget 0 = some 4500 ∧
    (value_range { start := 4500, stop := 10000, step := 1000 }).pyget 0 ≠ some 5000 ∧
    computed_new_start { start := 4500, stop := 10000, step := 1000 } = 5000 := by
  refine ⟨by decide, by decide, computed_new_start_4000, by decide, by decide,
    computed_new_start_4500⟩

/-- C5 as stated is violated by the code, through the same value_range slip:
with raw range (4000, 10000, 1000), the normalized (aligned) value set is
5000, 6000, ..., 9000, so 4000 is not a member and set_value(4000) should
fail without reaching the engine; the code instead checks membership in the
unaligned range, accepts 4000 and forwards it to the engine. The sentinel and
rejection mechanics themselves behave as claimed relative to the unaligned
range, shown by the last three conjuncts. -/
theorem c5_set_value_accepts_unaligned :
    set_value { start := 4000, stop := 10000, step := 1000 } (some 4000) =
      .ok (.setControl (some 4000)) ∧
    (normalized_value_range { start := 4000, stop := 10000, step := 1000 }).pymem 4000
      = false ∧
    set_value { start := 4000, stop := 10000, step := 1000 } none =
      .ok (.setControl none) ∧
    set_value { start := 4000, stop := 10000, step := 1000 } (some 4100) =
      .error .assertionError ∧
    set_value { start := 4000, stop := 10000, step := 1000 } (some 10000) =
      .error .assertionError := by
  refine ⟨by decide, ?_, by decide, by decide, by decide⟩
  have h : normalized_value_range { start := 4000, stop := 10000, step := 1000 } =
      { start := 5000, stop := 10000, step := 1000 } := by
    unfold normalized_value_range
    rw [computed_new_start_4000]
  rw [h]
  decide

/-- pyRound of a nonnegative rational is nonnegative. -/
theorem pyRound_nonneg {q : ℚ} (h : 0 ≤ q) : 0 ≤ pyRound q := by
  unfold pyRound
  have hf : (0 : Int) ≤ ⌊q⌋ := Int.floor_nonneg.mpr h
  split_ifs <;> omega

/-- pyRound never exceeds an integer upper bound of its argument. -/
theorem pyRound_le_int {q : ℚ} {n : Int} (h : q ≤ n) : pyRound q ≤ n := by
  unfold pyRound
  have h1 : ⌊q⌋ ≤ n := by
    have h2 := Int.floor_le_floor h
    rwa [Int.floor_intCast] at h2
  split_ifs with h2 h3 h4
  · exact h1
  · rcases lt_or_eq_of_le h1 with hlt | heq
    · omega
    · exfalso
      have hq : q ≤ (⌊q⌋ : ℚ) := by
        rw [heq]
        exact_mod_cast h
      linarith
  · exact h1
  · rcases lt_or_eq_of_le h1 with hlt | heq
    · omega
    · exfalso
      apply h2
      have hq : q ≤ (⌊q⌋ : ℚ) := by
        rw [heq]
        exact_mod_cast h
      linarith

/-- Range indexing at a valid nonnegative index yields start + i * step. -/
theorem pyget_of_valid (r : PyRange) (i : Int) (h0 : 0 ≤ i) (hlt : i < r.pylen) :
    r.pyget i = some (r.start + i * r.step) := by
  unfold PyRange.pyget
  simp only
  rw [if_neg (not_lt.mpr h0), if_pos ⟨h0, hlt⟩]

/-- For a fraction in the unit interval and a nonempty value set, set_fraction
delegates to set_value with the range element at index
round(fraction * (len - 1)). -/
theorem set_fraction_delegates (c : ControlRange) (f : ℚ)
    (hlen : 1 ≤ (value_range c).pylen) (hf0 : 0 ≤ f) (hf1 : f ≤ 1) :
    set_fraction c f =
      set_value c (some (c.start +
        pyRound (f * (((value_range c).pylen : ℚ) - 1)) * c.step)) := by
  have hn1 : (1 : ℚ) ≤ ((value_range c).pylen : ℚ) := by exact_mod_cast hlen
  have hnn : (0 : ℚ) ≤ ((value_range c).pylen : ℚ) - 1 := by linarith
  have hi0 : 0 ≤ pyRound (f * (((value_range c).pylen : ℚ) - 1)) :=
    pyRound_nonneg (mul_nonneg hf0 hnn)
  have hiN : pyRound (f * (((value_range c).pylen : ℚ) - 1)) ≤ (value_range c).pylen - 1 := by
    apply pyRound_le_int
    push_cast
    nlinarith
  have hilt : pyRound (f * (((value_range c).pylen : ℚ) - 1)) < (value_range c).pylen := by
    omega
  unfold set_fraction
  rw [if_pos ⟨hf0, hf1⟩]
  simp only
  rw [pyget_of_valid _ _ hi0 hilt]
  rfl

/-- pyRound is the identity on integers. -/
theorem pyRound_intCast (n : Int) : pyRound (n : ℚ) = n := by
  unfold pyRound
  rw [Int.floor_intCast, sub_self]
  norm_num

/-- C6: set_fraction rejects fractions outside the closed unit interval; for a
fraction inside it and a nonempty value set it delegates to set_value with the
value at index round(fraction * (len - 1)) of the value set; and on the
concrete ascending value set 0,1,2,3,4 of size 5 (raw range (0, 5, 1)) the
fractions 0, 1/2 and 1 select the values 0, 2 and 4. -/
theorem c6_set_fraction_mapping :
    (∀ (c : ControlRange) (f : ℚ), 1 ≤ (value_range c).pylen → 0 ≤ f → f ≤ 1 →
      set_fraction c f =
        set_value c (some (c.start +
          pyRound (f * (((value_range c).pylen : ℚ) - 1)) * c.step))) ∧
    (∀ (c : ControlRange) (f : ℚ), f < 0 ∨ 1 < f →
      set_fraction c f = .error .assertionError) ∧
    set_fraction { start := 0, stop := 5, step := 1 } 0 = .ok (.setControl (some 0)) ∧
    set_fraction { start := 0, stop := 5, step := 1 } (1 / 2) = .ok (.setControl (some 2)) ∧
    set_fraction { start := 0, stop := 5, step := 1 } 1 = .ok (.setControl (some 4)) := by
  have hlen5 : (value_range { start := 0, stop := 5, step := 1 }).pylen = 5 := by decide
  refine ⟨set_fraction_delegates, ?_, ?_, ?_, ?_⟩
  · intro c f h
    unfold set_fraction
    rw [if_neg]
    rcases h with h | h
    · exact fun hc => absurd hc.1 (not_le.mpr h)
    · exact fun hc => absurd hc.2 (not_le.mpr h)
  · rw [set_fraction_delegates _ _ (by decide) (by norm_num) (by norm_num), hlen5]
    have h0 : (0 : ℚ) * (((5 : Int) : ℚ) - 1) = ((0 : Int) : ℚ) := by norm_num
    rw [h0, pyRound_intCast]
    decide
  · rw [set_fraction_delegates _ _ (by decide) (by norm_num) (by norm_num), hlen5]
    have h2 : (1 / 2 : ℚ) * (((5 : Int) : ℚ) - 1) = ((2 : Int) : ℚ) := by norm_num
    rw [h2, pyRound_intCast]
    decide
  · rw [set_fraction_delegates _ _ (by decide) (by norm_num) (by norm_num), hlen5]
    have h4 : (1 : ℚ) * (((5 : Int) : ℚ) - 1) = ((4 : Int) : ℚ) := by norm_num
    rw [h4, pyRound_intCast]
    decide

/-- Witness for C6 at the concrete raw range (0, 5, 1) and fraction 1/2,
discharging the hypotheses of the general delegation conjunct. -/
theorem c6_set_fraction_mapping_witness :
    set_fraction { start := 0, stop := 5, step := 1 } (1 / 2) =
      set_value { start := 0, stop := 5, step := 1 }
        (some (0 + pyRound ((1 / 2) *
          (((value_range { start := 0, stop := 5, step := 1 }).pylen : ℚ) - 1)) * 1)) :=
  c6_set_fraction_mapping.1 { start := 0, stop := 5, step := 1 } (1 / 2)
    (by decide) (by norm_num) (by norm_num)
